import Mathlib

/-!
Verification of the endpoint-registration and request-handling core of the
Silence framework (`silence/server/endpoint.py`), via a shallow embedding:
each Python helper is translated into an executable Lean definition, and the
spec's claims are settled as theorems about those definitions.

Conventions of the embedding:
* Python strings are `String`; `\w` (word character) is modelled as ASCII
  alphanumeric or underscore, and `str.lower()` as ASCII lowering, which is
  exact on all identifiers and values the code manipulates.
* Query-string arguments (`request.args`, a MultiDict) are association lists
  `List (String × String)`; `.get` returns the first value for a key, and
  `.items()` yields each key once with its first value.
* Database rows are association lists from column names to dynamically typed
  values (`Value`); the database layer itself is external and is represented
  by the row list it returns.
-/

namespace Silence

/-- Python `\w` on the ASCII range: letters, digits, underscore. -/
def isWordChar (c : Char) : Bool := c.isAlphanum || c == '_'

/-- Scanner underlying `re.findall(r"\$\w+", s)`, as a left-to-right state
machine. The second argument is `none` while scanning for a `$`, and
`some acc` (accumulated word characters, reversed) after a `$` has been seen;
matches are non-overlapping, exactly as `re.findall` produces them. -/
def epAux : List Char → Option (List Char) → List (List Char)
  | [], none => []
  | [], some acc => if acc.isEmpty then [] else [acc.reverse]
  | c :: rest, none => if c = '$' then epAux rest (some []) else epAux rest none
  | c :: rest, some acc =>
    if isWordChar c then epAux rest (some (c :: acc))
    else
      (if acc.isEmpty then [] else [acc.reverse]) ++
        (if c = '$' then epAux rest (some []) else epAux rest none)

/-- `extract_params` (endpoint.py:272-274): the list of `$params` in a SQL
query or endpoint route, in order of appearance, `$` stripped, duplicates
kept. -/
def extract_params (s : String) : List String :=
  (epAux s.data none).map (fun w => String.mk w)

/-- Scanner underlying `re.sub(r"\$(\w+)", r"<\1>", url)`, the same state
machine as `epAux`: every `$name` match is rewritten to `<name>`, all other
characters are copied through unchanged. -/
def flaskAux : List Char → Option (List Char) → List Char
  | [], none => []
  | [], some acc => if acc.isEmpty then ['$'] else '<' :: (acc.reverse ++ ['>'])
  | c :: rest, none => if c = '$' then flaskAux rest (some []) else c :: flaskAux rest none
  | c :: rest, some acc =>
    if isWordChar c then flaskAux rest (some (c :: acc))
    else
      (if acc.isEmpty then ['$'] else '<' :: (acc.reverse ++ ['>'])) ++
        (if c = '$' then flaskAux rest (some []) else c :: flaskAux rest none)

/-- `flaskify_url` (endpoint.py:277-278): converts `$url_param` to
`<url_param>`. -/
def flaskify_url (url : String) : String :=
  String.mk (flaskAux url.data none)

example : extract_params "SELECT * FROM t WHERE a = $a AND b = $b" = ["a", "b"] := by
  decide

example : extract_params "/users/$id" = ["id"] := by decide

example : flaskify_url "/users/$id" = "/users/<id>" := by decide

example : extract_params "" = [] := by decide

example : extract_params "$x $x $$y z" = ["x", "x", "y"] := by decide

/-! ## Dynamically typed row values -/

/-- A dynamically typed value in a database row (JSON-ish scalar). -/
inductive Value
  | vNull
  | vInt (n : Int)
  | vStr (s : String)
  | vBool (b : Bool)
deriving DecidableEq, Repr

/-- A database row: an association list from column names to values, with
distinct keys (a Python dict). -/
abbrev Row := List (String × Value)

/-- `elem[k]` / `k in elem` on a row: the first binding of column `k`. -/
def lookupRow (r : Row) (k : String) : Option Value :=
  (r.find? (fun kv => kv.1 == k)).map (·.2)

/-- Python `str(v)` on a row value. -/
def pyStr : Value → String
  | .vNull => "None"
  | .vInt n => toString n
  | .vStr s => s
  | .vBool b => if b then "True" else "False"

/-- Python `str.lower()` (ASCII range). -/
def lowerStr (s : String) : String :=
  String.mk (s.data.map Char.toLower)

/-! ## Query-string arguments (`request.args`) -/

/-- The raw query string, as (key, value) pairs in order. -/
abbrev Args := List (String × String)

/-- `args.get(k)`: the first value for key `k`, `None` if absent. -/
def argsGet (args : Args) (k : String) : Option String :=
  (args.find? (fun kv => kv.1 == k)).map (·.2)

/-- Helper for `argsItems`: keep the first pair for each key not yet seen. -/
def dedupKeys : Args → List String → Args
  | [], _ => []
  | (k, v) :: rest, seen =>
    if k ∈ seen then dedupKeys rest seen else (k, v) :: dedupKeys rest (k :: seen)

/-- `args.items()` on a werkzeug MultiDict: each key once, with its first
value, in order of first appearance. -/
def argsItems (args : Args) : Args := dedupKeys args []

/-! ## Result shaping: `filter_query_results` (endpoint.py:197-227) -/

/-- `k.startswith("_")`. -/
def startsUnderscore (k : String) : Bool := k.data.head? == some '_'

/-- endpoint.py:213 — `[pair for pair in args.items() if not pair[0].startswith("_")]`. -/
def filter_criteria (args : Args) : Args :=
  (argsItems args).filter (fun kv => !startsUnderscore kv.1)

/-- endpoint.py:214 — the filter predicate:
`all(k not in elem or str(elem[k]).lower() == v.lower() for k, v in filter_criteria)`. -/
def rowMatches (criteria : Args) (row : Row) : Bool :=
  criteria.all (fun kv =>
    match lookupRow row kv.1 with
    | none => true
    | some v => lowerStr (pyStr v) == lowerStr kv.2)

/-- endpoint.py:215 — `res = list(filter(filter_func, data))`. -/
def filterStage (data : List Row) (args : Args) : List Row :=
  data.filter (rowMatches (filter_criteria args))

/-- A sort key produced by `order_key_func` (endpoint.py:217-219): either the
`Min` sentinel (for SQL NULLs) or a concrete row value.

Modelled from the spec: `Min` (from `silence.utils.min_type`, not under
`src/`) is the sentinel "minimum" comparator value — `None` sorts below any
concrete value. -/
inductive SortKey
  | minK
  | valK (v : Value)
deriving DecidableEq, Repr

/-- `order_key_func` (endpoint.py:217-219): `v if v is not None else Min`.
The `none` case is unreachable: the sort only runs when every row has the
sort column (otherwise the `KeyError` is caught and sorting is skipped). -/
def order_key_func (sp : String) (row : Row) : SortKey :=
  match lookupRow row sp with
  | some .vNull => .minK
  | some v => .valK v
  | none => .minK

/-- Whether two row values are comparable under Python's `<`/`<=`:
numbers (`int`/`bool`) compare with numbers, strings with strings; any other
pair raises `TypeError`. -/
def valComparable : Value → Value → Bool
  | .vInt _, .vInt _ => true
  | .vInt _, .vBool _ => true
  | .vBool _, .vInt _ => true
  | .vBool _, .vBool _ => true
  | .vStr _, .vStr _ => true
  | _, _ => false

/-- Python `<=` on comparable row values (`True == 1`, `False == 0`;
strings compare lexicographically). Unreachable on incomparable pairs. -/
def valLE : Value → Value → Bool
  | .vInt a, .vInt b => a ≤ b
  | .vInt a, .vBool b => a ≤ (if b then 1 else 0)
  | .vBool a, .vInt b => (if a then (1 : Int) else 0) ≤ b
  | .vBool a, .vBool b => (if a then (1 : Int) else 0) ≤ (if b then 1 else 0)
  | .vStr a, .vStr b => a ≤ b
  | _, _ => true

/-- `Min` is comparable with everything; values as in `valComparable`. -/
def keyComparable : SortKey → SortKey → Bool
  | .minK, _ => true
  | _, .minK => true
  | .valK a, .valK b => valComparable a b

/-- The sort order on keys: `Min` is below everything. -/
def keyLE : SortKey → SortKey → Bool
  | .minK, _ => true
  | .valK _, .minK => false
  | .valK a, .valK b => valLE a b

/-- Stable insertion into a sorted list: `a` goes before the first element it
compares `le` to. -/
def insertSorted (le : α → α → Bool) (a : α) : List α → List α
  | [] => [a]
  | b :: l => if le a b then a :: b :: l else b :: insertSorted le a l

/-- Stable sort by a boolean total preorder (the unique stable result, hence
the result of Python's stable `list.sort`). -/
def stableSort (le : α → α → Bool) : List α → List α
  | [] => []
  | a :: l => insertSorted le a (stableSort le l)

/-- `res.sort(key=order_key_func, reverse=sort_reverse)` once all keys exist:
stable, ascending by key, or descending (ties in original order) when
`reverse` is set. -/
def sortRows (res : List Row) (sp : String) (rev : Bool) : List Row :=
  stableSort
    (fun r1 r2 =>
      if rev then keyLE (order_key_func sp r2) (order_key_func sp r1)
      else keyLE (order_key_func sp r1) (order_key_func sp r2))
    res

/-- endpoint.py:221-223 — the sort step with its `try/except KeyError`.
* No `_sort` argument: `elem[None]` raises `KeyError`, which is caught, so the
  rows are returned unchanged (Python computes all keys before reordering, so
  the list is untouched when a key is missing).
* Some row lacks the column: `KeyError` again, rows unchanged.
* All rows have the column: the sort runs; if two keys are incomparable,
  Python raises `TypeError`, which is NOT caught — modelled as `none`. -/
def sortStage (res : List Row) (sortParam : Option String) (rev : Bool) :
    Option (List Row) :=
  match sortParam with
  | none => some res
  | some sp =>
    if res.all (fun r => (lookupRow r sp).isSome) then
      if res.all (fun r1 => res.all (fun r2 =>
          keyComparable (order_key_func sp r1) (order_key_func sp r2))) then
        some (sortRows res sp rev)
      else none
    else some res

/-- Clamp a Python slice index into `[0, len]`, counting from the end when
negative. -/
def pyIdx (len : Nat) (i : Int) : Nat :=
  if i < 0 then ((len : Int) + i).toNat else min i.toNat len

/-- Python list slicing `l[start:stop]`. -/
def pySlice (l : List α) (start stop : Int) : List α :=
  (l.take (pyIdx l.length stop)).drop (pyIdx l.length start)

/-- Whitespace-tolerant model of Python `int(x)` under `try/except
(ValueError, TypeError)`: `None` or a non-integer string yields `none`. -/
def pyToInt (s? : Option String) : Option Int :=
  match s? with
  | none => none
  | some s =>
    let t := (((s.data.dropWhile Char.isWhitespace).reverse.dropWhile
      Char.isWhitespace).reverse)
    let digits? : List Char → Option Int := fun ds =>
      if !ds.isEmpty && ds.all Char.isDigit then
        some (Int.ofNat (ds.foldl (fun acc c => 10 * acc + (c.toNat - '0'.toNat)) 0))
      else none
    match t with
    | '+' :: ds => digits? ds
    | '-' :: ds => (digits? ds).map (- ·)
    | ds => digits? ds

/-- endpoint.py:225-227 — the pagination step:
`offset = limit * page if limit and page else 0`;
`top = offset + limit if limit else len(res)`; `return res[offset:top]`.
`limit and page` is Python truthiness: both non-`None` and non-zero. -/
def pageStage (res : List Row) (limit page : Option Int) : List Row :=
  let offset : Int :=
    match limit, page with
    | some l, some p => if l ≠ 0 ∧ p ≠ 0 then l * p else 0
    | _, _ => 0
  let top : Int :=
    match limit with
    | some l => if l ≠ 0 then offset + l else (res.length : Int)
    | none => (res.length : Int)
  pySlice res offset top

/-- `filter_query_results` (endpoint.py:197-227): filter by the non-reserved
query-string keys, sort by `_sort`/`_order`, then page by `_limit`/`_page`.
`none` models an uncaught `TypeError` from sorting incomparable values. -/
def filter_query_results (data : List Row) (args : Args) : Option (List Row) :=
  let sort_param := argsGet args "_sort"
  let sort_reverse := argsGet args "_order" == some "desc"
  let limit := pyToInt (argsGet args "_limit")
  let page := pyToInt (argsGet args "_page")
  let res := filterStage data args
  (sortStage res sort_param sort_reverse).map (fun r => pageStage r limit page)

/-! ## Authorization gate (endpoint.py:153-194) -/

/-- An HTTP error raised by `raise HTTPError(code, message)`. -/
structure HTTPErrorV where
  code : Nat
  message : String
deriving DecidableEq, Repr

/-- `get_logged_user` (endpoint.py:153-163): read the `Token` header; no
token (or a falsy empty one) means no identity; an invalid token
(`check_token` raises `TokenError`) is logged and also yields no identity.
`check_token` belongs to the external token-verification collaborator and is
taken as a parameter. -/
def get_logged_user (check_token : String → Except String Row)
    (token : Option String) : Option Row :=
  match token with
  | none => none
  | some t =>
    if t = "" then none
    else
      match check_token t with
      | .ok data => some data
      | .error _ => none

/-- Python `user_role not in allowed_roles` negated: a claim value is a
member of the (string) role list iff it is a string equal to one of them. -/
def roleMem : Option Value → List String → Bool
  | some (.vStr s), roles => roles.contains s
  | _, _ => false

/-- endpoint.py:178 — `next((v for k, v in logged_user_data.items() if
k.lower() == role_col_name.lower()), None)`: the first claim value whose key
matches the configured role column case-insensitively. -/
def findRole (data : Row) (rc : String) : Option Value :=
  (data.find? (fun kv => lowerStr kv.1 == lowerStr rc)).map (·.2)

/-- `check_session` (endpoint.py:169-183): 401 when no identity; then, when a
role column is configured (`settings.USER_AUTH_DATA.get("role")` truthy), the
user's role claim is looked up by case-insensitive key comparison and must be
in `allowed_roles` (exact match) unless `"*"` is allowed. -/
def check_session (logged_user_data : Option Row) (allowed_roles : List String)
    (role_col : Option String) : Except HTTPErrorV Unit :=
  match logged_user_data with
  | none => .error ⟨401, "Unauthorized"⟩
  | some data =>
    match role_col with
    | none => .ok ()
    | some rc =>
      if rc = "" then .ok ()
      else
        if !roleMem (findRole data rc) allowed_roles && !allowed_roles.contains "*" then
          .error ⟨401, "Unauthorized"⟩
        else .ok ()

/-! ## Registration-time checks (endpoint.py:19-70, 229-293) -/

/-- The four supported SQL operations (`SQL.SELECT` etc.). -/
inductive SqlOp
  | select
  | insert
  | update
  | delete
deriving DecidableEq, Repr

/-- Modelled from the spec: `get_sql_op` (imported from `silence.sql`, not
under `src/`) infers "the operation kind determined by its leading keyword" of
the query template; the supported keywords are SELECT/INSERT/UPDATE/DELETE,
matched case-insensitively, any other leading keyword is unrecognized. -/
def get_sql_op (sql : String) : Option SqlOp :=
  let kw := lowerStr (String.mk ((sql.data.dropWhile Char.isWhitespace).takeWhile
    (fun c => !c.isWhitespace)))
  if kw = "select" then some .select
  else if kw = "insert" then some .insert
  else if kw = "update" then some .update
  else if kw = "delete" then some .delete
  else none

/-- `OP_VERBS` (endpoint.py:19-24): the canonical HTTP verb per operation. -/
def OP_VERBS : SqlOp → String
  | .select => "get"
  | .insert => "post"
  | .update => "put"
  | .delete => "delete"

/-- Outcome of `check_method` (endpoint.py:230-246): recognized keyword with
the right verb, recognized keyword with the wrong verb (warning logged,
registration proceeds), or unrecognized keyword (`sys.exit(1)`). -/
inductive MethodCheck
  | ok
  | warnWrongVerb
  | fatalBadOp
deriving DecidableEq, Repr

/-- `check_method` (endpoint.py:230-246). -/
def check_method (sql verb : String) : MethodCheck :=
  match get_sql_op sql with
  | some op => if OP_VERBS op ≠ lowerStr verb then .warnWrongVerb else .ok
  | none => .fatalBadOp

/-- The dynamically typed `allowed_roles` argument: either an actual Python
list of role strings, or any non-list value (`isinstance(allowed_roles, list)`
fails). -/
inductive RolesParam
  | list (roles : List String)
  | notAList
deriving DecidableEq, Repr

/-- Outcome of `check_auth_roles` (endpoint.py:248-268). -/
inductive AuthRolesCheck
  | ok
  | warnRolesWithoutAuth
  | warnEmptyRoles
  | fatalNotAList
deriving DecidableEq, Repr

/-- `check_auth_roles` (endpoint.py:248-268): `sys.exit(1)` when
`allowed_roles` is not a list; warn when roles other than the default `["*"]`
are given without `auth_required`; warn when `auth_required` holds but the
role list is empty. -/
def check_auth_roles (auth_required : Bool) (allowed_roles : RolesParam) :
    AuthRolesCheck :=
  match allowed_roles with
  | .notAList => .fatalNotAList
  | .list roles =>
    if !auth_required && roles.length > 0 && roles ≠ ["*"] then .warnRolesWithoutAuth
    else if auth_required && roles.length == 0 then .warnEmptyRoles
    else .ok

/-- The set difference computed by `check_params_match` (endpoint.py:281-293):
SQL parameters not provided by the user-facing sources, with the reserved
`loggedId` removed; duplicates collapsed (Python sets). -/
def missing_params (sql_params user_params : List String) : List String :=
  (sql_params.filter (fun p => !user_params.contains p && p ≠ "loggedId")).dedup

/-- `check_params_match` (endpoint.py:281-293): `sys.exit(1)` naming the
missing parameters when the difference is non-empty. -/
def check_params_match (sql_params user_params : List String) :
    Except (List String) Unit :=
  let diff := missing_params sql_params user_params
  if diff = [] then .ok () else .error diff

/-- Python `sub in s` (substring containment). -/
def strContains (s sub : String) : Bool :=
  s.data.tails.any (fun t => sub.data.isPrefixOf t)

/-- A registration warning logged by `setup_endpoint` (in logging order). -/
inductive SetupWarning
  | loggedIdWithoutAuth
  | wrongVerb
  | rolesWithoutAuth
  | emptyRoles
deriving DecidableEq, Repr

/-- Outcome of `setup_endpoint`: one of the three `sys.exit(1)` sites (no
route is installed), or a registered route (the flaskified full route that is
passed to `add_url_rule`) together with the warnings logged along the way. -/
inductive SetupResult
  | fatalBadOp
  | fatalBadRoles
  | fatalMissingParams (missing : List String)
  | registered (flaskRoute : String) (warnings : List SetupWarning)
deriving DecidableEq, Repr

/-- `setup_endpoint` (endpoint.py:32-70, 143-145), registration phase: warn
about `$loggedId` without authentication, build the full route from
`settings.API_PREFIX`, run `check_method`, `check_auth_roles` and the
parameter cross-validation, and only then install the flaskified route. -/
def setup_endpoint (apiPrefix route method sql : String) (auth_required : Bool)
    (allowed_roles : RolesParam) (request_body_params : List String) :
    SetupResult :=
  let loggedUserWarn := strContains sql "$loggedId" && !auth_required
  let routePrefix :=
    if apiPrefix.data.getLast? = some '/' then String.mk apiPrefix.data.dropLast
    else apiPrefix
  let full_route := routePrefix ++ route
  let mc := check_method sql method
  let ac := check_auth_roles auth_required allowed_roles
  if mc = .fatalBadOp then .fatalBadOp
  else if ac = .fatalNotAList then .fatalBadRoles
  else
    let sql_params := extract_params sql
    let url_params := extract_params route
    let paramCheck :=
      match get_sql_op sql with
      | some .select | some .delete => check_params_match sql_params url_params
      | some .insert | some .update =>
        check_params_match sql_params (url_params ++ request_body_params)
      | none => .ok ()
    match paramCheck with
    | .error missing => .fatalMissingParams missing
    | .ok _ =>
      let warnings :=
        (if loggedUserWarn then [SetupWarning.loggedIdWithoutAuth] else []) ++
        (if mc = .warnWrongVerb then [SetupWarning.wrongVerb] else []) ++
        (if ac = .warnRolesWithoutAuth then [SetupWarning.rolesWithoutAuth] else []) ++
        (if ac = .warnEmptyRoles then [SetupWarning.emptyRoles] else [])
      .registered (flaskify_url full_route) warnings

/-! ## The per-request handler (endpoint.py:73-141) -/

/-- `RE_QUERY_PARAM` (endpoint.py:26), `re.compile(r"^.*\$\w+/?$")`: the
route pattern ends in `$word`, optionally followed by a single `/`. -/
def endsWithParam (route : String) : Bool :=
  let l := if route.data.getLast? = some '/' then route.data.dropLast else route.data
  let r := l.reverse
  !(r.takeWhile isWordChar).isEmpty && (r.dropWhile isWordChar).head? == some '$'

/-- A successful handler response body: a row list for SELECT, or the write
result (opaque, produced by the external data layer) otherwise. -/
inductive HandlerResp
  | rows (rs : List Row)
  | writeResult
deriving DecidableEq, Repr

/-- The static configuration captured by the `route_handler` closure. -/
structure EndpointCfg where
  route : String
  sql : String
  auth_required : Bool
  allowed_roles : List String
  request_body_params : List String

/-- `route_handler` (endpoint.py:73-141). External collaborators are
abstracted at their interfaces: `check_token` is the token verifier,
`role_col` is `settings.USER_AUTH_DATA.get("role")`, and `dbRows` is the
result set returned by `dal.api_safe_query` (parameter binding and SQL
translation happen inside the external data layer call). The first component
counts how many queries were delegated to the data layer (0 or 1). -/
def route_handler (cfg : EndpointCfg) (role_col : Option String)
    (check_token : String → Except String Row) (token : Option String)
    (args : Args) (dbRows : List Row) : Nat × Except HTTPErrorV HandlerResp :=
  let logged_user_data := get_logged_user check_token token
  let proceed : Nat × Except HTTPErrorV HandlerResp :=
    match get_sql_op cfg.sql with
    | some .select =>
      match filter_query_results dbRows args with
      | none => (1, .error ⟨500, "TypeError"⟩)
      | some res =>
        if endsWithParam cfg.route && res.isEmpty then (1, .error ⟨404, "Not found"⟩)
        else (1, .ok (.rows res))
    | _ => (1, .ok .writeResult)
  if cfg.auth_required then
    match check_session logged_user_data cfg.allowed_roles role_col with
    | .error e => (0, .error e)
    | .ok _ => proceed
  else proceed

/-- The parameter sources the claims compare the query parameters against:
route-pattern parameters for reads and deletes, route-pattern parameters plus
the declared body parameters for creates and updates. -/
def coveredParams (op : SqlOp) (route : String) (body : List String) :
    List String :=
  match op with
  | .select | .delete => extract_params route
  | .insert | .update => extract_params route ++ body

/-! ## Scanner lemmas -/

theorem isWordChar_dollar : isWordChar '$' = false := by decide

theorem ne_dollar_of_wordChar {c : Char} (h : isWordChar c = true) : c ≠ '$' := by
  intro hc; subst hc; simp [isWordChar] at h

theorem epAux_cons_none_ne {c : Char} (l : List Char) (hc : c ≠ '$') :
    epAux (c :: l) none = epAux l none := by
  simp [epAux, hc]

theorem epAux_cons_none_dollar (l : List Char) :
    epAux ('$' :: l) none = epAux l (some []) := by
  simp [epAux]

theorem epAux_cons_someNil_dollar (l : List Char) :
    epAux ('$' :: l) (some []) = epAux l (some []) := by
  simp [epAux, isWordChar_dollar]

theorem epAux_cons_someNil_ne {c : Char} (l : List Char) (hw : isWordChar c = false)
    (hc : c ≠ '$') : epAux (c :: l) (some []) = epAux l none := by
  simp [epAux, hw, hc]

/-- Scanning past a `$`-free prefix finds nothing there. -/
theorem epAux_append_no_dollar (w X : List Char) (h : ∀ c ∈ w, c ≠ '$') :
    epAux (w ++ X) none = epAux X none := by
  induction w with
  | nil => rfl
  | cons c rest ih =>
    have hc : c ≠ '$' := h c (by simp)
    rw [List.cons_append, epAux_cons_none_ne _ hc]
    exact ih (fun d hd => h d (by simp [hd]))

/-- Central invariant for C8: the output of the flaskify scanner contains no
extractable `$name` occurrence, whichever scanning state it is consumed in. -/
theorem epAux_flaskAux (l : List Char) :
    epAux (flaskAux l none) none = [] ∧
    ∀ acc, (∀ c ∈ acc, isWordChar c = true) →
      epAux (flaskAux l (some acc)) none = [] ∧
      epAux (flaskAux l (some acc)) (some []) = [] := by
  induction l with
  | nil =>
    refine ⟨rfl, fun acc hacc => ?_⟩
    by_cases ha : acc.isEmpty
    · simp [flaskAux, ha, epAux, isWordChar_dollar]
    · have hnd : ∀ c ∈ acc.reverse, c ≠ '$' := fun c hc =>
        ne_dollar_of_wordChar (hacc c (List.mem_reverse.mp hc))
      constructor
      · rw [flaskAux, if_neg ha, epAux_cons_none_ne _ (by decide),
          show acc.reverse ++ ['>'] = acc.reverse ++ ['>'] ++ [] by simp,
          List.append_assoc, epAux_append_no_dollar _ _ hnd]
        rw [show ['>'] ++ [] = '>' :: [] by rfl, epAux_cons_none_ne _ (by decide)]
        rfl
      · rw [flaskAux, if_neg ha, epAux_cons_someNil_ne _ (by decide) (by decide),
          show acc.reverse ++ ['>'] = acc.reverse ++ ['>'] ++ [] by simp,
          List.append_assoc, epAux_append_no_dollar _ _ hnd]
        rw [show ['>'] ++ [] = '>' :: [] by rfl, epAux_cons_none_ne _ (by decide)]
        rfl
  | cons c rest ih =>
    have hrhsN : epAux (if c = '$' then flaskAux rest (some [])
        else c :: flaskAux rest none) none = [] := by
      by_cases hc : c = '$'
      · rw [if_pos hc]; exact (ih.2 [] (by simp)).1
      · rw [if_neg hc, epAux_cons_none_ne _ hc]; exact ih.1
    refine ⟨?_, fun acc hacc => ?_⟩
    · rw [flaskAux]
      by_cases hc : c = '$'
      · rw [if_pos hc]; exact (ih.2 [] (by simp)).1
      · rw [if_neg hc, epAux_cons_none_ne _ hc]; exact ih.1
    · by_cases hw : isWordChar c
      · rw [flaskAux, if_pos hw]
        exact ih.2 (c :: acc) (by
          intro d hd
          rcases List.mem_cons.mp hd with h | h
          · exact h ▸ hw
          · exact hacc d h)
      · have hwf : isWordChar c = false := by simpa using hw
        have hrhsS : epAux (if c = '$' then flaskAux rest (some [])
            else c :: flaskAux rest none) (some []) = [] := by
          by_cases hc : c = '$'
          · rw [if_pos hc]; exact (ih.2 [] (by simp)).2
          · rw [if_neg hc, epAux_cons_someNil_ne _ hwf hc]; exact ih.1
        by_cases ha : acc.isEmpty
        · rw [flaskAux, if_neg hw, if_pos ha, List.singleton_append]
          exact ⟨by rw [epAux_cons_none_dollar]; exact hrhsS,
            by rw [epAux_cons_someNil_dollar]; exact hrhsS⟩
        · have hnd : ∀ d ∈ acc.reverse, d ≠ '$' := fun d hd =>
            ne_dollar_of_wordChar (hacc d (List.mem_reverse.mp hd))
          have key : epAux ((acc.reverse ++ ['>']) ++ (if c = '$'
              then flaskAux rest (some []) else c :: flaskAux rest none)) none = [] := by
            rw [List.append_assoc, epAux_append_no_dollar _ _ hnd,
              List.singleton_append, epAux_cons_none_ne _ (by decide)]
            exact hrhsN
          rw [flaskAux, if_neg hw, if_neg ha, List.cons_append]
          exact ⟨by rw [epAux_cons_none_ne _ (by decide)]; exact key,
            by rw [epAux_cons_someNil_ne _ (by decide) (by decide)]; exact key⟩

/-! ## Lemmas about the parameter cross-validation -/

theorem missing_params_eq_nil_iff (a b : List String) :
    missing_params a b = [] ↔ ∀ p ∈ a, p ≠ "loggedId" → p ∈ b := by
  unfold missing_params
  rw [List.dedup_eq_nil, List.filter_eq_nil_iff]
  constructor
  · intro h p hp hne
    have := h p hp
    simp only [Bool.and_eq_true, Bool.not_eq_true', decide_eq_true_eq, not_and] at this
    by_contra hb
    exact this (by simpa [List.elem_iff] using hb) hne
  · intro h p hp
    simp only [Bool.and_eq_true, Bool.not_eq_true', decide_eq_true_eq, not_and]
    intro hc hne
    have := h p hp hne
    simp [List.elem_iff, this] at hc

theorem mem_missing_params (a b : List String) (p : String) :
    p ∈ missing_params a b ↔ p ∈ a ∧ p ∉ b ∧ p ≠ "loggedId" := by
  unfold missing_params
  rw [List.mem_dedup, List.mem_filter]
  simp [List.elem_iff]

theorem check_method_ne_fatal {sql : String} {op : SqlOp}
    (hop : get_sql_op sql = some op) (method : String) :
    ¬ check_method sql method = .fatalBadOp := by
  simp only [check_method, hop]
  split <;> simp

theorem check_auth_roles_list_ne_fatal (auth : Bool) (roles : List String) :
    ¬ check_auth_roles auth (.list roles) = .fatalNotAList := by
  simp only [check_auth_roles]
  split
  · simp
  · split <;> simp

/-- Once the keyword is recognized and `allowed_roles` is a list, the outcome
of `setup_endpoint` is decided by the parameter cross-validation alone. -/
theorem setup_endpoint_eq_of_op {sql : String} {op : SqlOp}
    (hop : get_sql_op sql = some op) (apiPrefix route method : String)
    (auth : Bool) (roles : List String) (body : List String) :
    setup_endpoint apiPrefix route method sql auth (.list roles) body =
      match check_params_match (extract_params sql) (coveredParams op route body) with
      | .error missing => .fatalMissingParams missing
      | .ok _ =>
        .registered
          (flaskify_url
            ((if apiPrefix.data.getLast? = some '/' then String.mk apiPrefix.data.dropLast
              else apiPrefix) ++ route))
          ((if strContains sql "$loggedId" && !auth
              then [SetupWarning.loggedIdWithoutAuth] else []) ++
            (if check_method sql method = .warnWrongVerb then [SetupWarning.wrongVerb] else []) ++
            (if check_auth_roles auth (.list roles) = .warnRolesWithoutAuth
              then [SetupWarning.rolesWithoutAuth] else []) ++
            (if check_auth_roles auth (.list roles) = .warnEmptyRoles
              then [SetupWarning.emptyRoles] else [])) := by
  unfold setup_endpoint
  rw [if_neg (check_method_ne_fatal hop method),
    if_neg (check_auth_roles_list_ne_fatal auth roles), hop]
  cases op <;> rfl

/-! ## Claim theorems -/

/-- C8: parameter extraction is a pure deterministic function: it returns the
`$`-marked identifiers in order with the sigil stripped and duplicates
preserved, returns the empty sequence on empty input, returns the same result
on repeated calls, and extraction applied to any flaskified (`$x` → `<x>`)
route pattern returns the empty sequence. -/
theorem extract_params_pure_and_flaskify_erases :
    extract_params "" = [] ∧
    (∀ s : String, extract_params s = extract_params s) ∧
    (∀ s : String, extract_params (flaskify_url s) = []) ∧
    extract_params "/d/$pid/e/$pid" = ["pid", "pid"] := by
  refine ⟨by decide, fun s => rfl, fun s => ?_, by decide⟩
  show (epAux (flaskAux s.data none) none).map _ = []
  rw [(epAux_flaskAux s.data).1]
  rfl

/-- C1: when the query template's keyword is recognized and `allowed_roles`
is a well-formed list, registration succeeds iff every query parameter other
than the reserved `loggedId` appears among the route-pattern parameters
(SELECT/DELETE) resp. route-pattern ∪ body parameters (INSERT/UPDATE); an
uncovered parameter yields the fatal `sys.exit(1)` outcome (no route
installed), naming exactly the missing parameters. -/
theorem setup_endpoint_param_coverage (apiPrefix route method sql : String)
    (auth : Bool) (roles : List String) (body : List String) (op : SqlOp)
    (hop : get_sql_op sql = some op) :
    ((∃ fr w, setup_endpoint apiPrefix route method sql auth (.list roles) body =
        .registered fr w) ↔
      ∀ p ∈ extract_params sql, p ≠ "loggedId" → p ∈ coveredParams op route body) ∧
    (∀ missing,
      setup_endpoint apiPrefix route method sql auth (.list roles) body =
        .fatalMissingParams missing →
      missing ≠ [] ∧
      ∀ p, p ∈ missing ↔
        p ∈ extract_params sql ∧ p ∉ coveredParams op route body ∧ p ≠ "loggedId") := by
  rw [setup_endpoint_eq_of_op hop apiPrefix route method auth roles body]
  unfold check_params_match
  by_cases hd : missing_params (extract_params sql) (coveredParams op route body) = []
  · rw [if_pos hd]
    refine ⟨⟨fun _ => (missing_params_eq_nil_iff _ _).mp hd, fun _ => ⟨_, _, rfl⟩⟩, ?_⟩
    intro missing h
    exact absurd h (by simp)
  · rw [if_neg hd]
    constructor
    · constructor
      · rintro ⟨fr, w, h⟩
        exact absurd h (by simp)
      · intro hcov
        exact absurd ((missing_params_eq_nil_iff _ _).mpr hcov) hd
    · rintro missing h
      have hm : missing = missing_params (extract_params sql) (coveredParams op route body) := by
        cases h; rfl
      subst hm
      exact ⟨hd, fun p => mem_missing_params _ _ p⟩

/-- Witness for C1 at a concrete endpoint: the single-resource read endpoint
registers, because its only query parameter `id` appears in the route. -/
theorem setup_endpoint_param_coverage_witness :
    ∃ fr w, setup_endpoint "/api" "/users/$id" "get"
      "SELECT * FROM users WHERE id = $id" false (.list ["*"]) [] =
      .registered fr w :=
  ((setup_endpoint_param_coverage "/api" "/users/$id" "get"
      "SELECT * FROM users WHERE id = $id" false ["*"] [] .select (by decide)).1).mpr
    (by decide)

/-- C2: an unrecognized leading keyword in the query template is the one and
only cause of the keyword-fatal abort (`sys.exit(1)`, no route installed); a
recognized keyword whose canonical verb differs from the declared HTTP verb
only produces a warning, and registration proceeds — when the remaining
checks pass, the route is installed with the verb warning recorded. -/
theorem setup_endpoint_unrecognized_keyword_fatal
    (apiPrefix route method sql : String) (auth : Bool) (rolesP : RolesParam)
    (body : List String) :
    (get_sql_op sql = none →
      check_method sql method = .fatalBadOp ∧
      setup_endpoint apiPrefix route method sql auth rolesP body = .fatalBadOp) ∧
    (setup_endpoint apiPrefix route method sql auth rolesP body = .fatalBadOp →
      get_sql_op sql = none) ∧
    (∀ op, get_sql_op sql = some op → OP_VERBS op ≠ lowerStr method →
      check_method sql method = .warnWrongVerb ∧
      ∀ roles, rolesP = .list roles →
        (∀ p ∈ extract_params sql, p ≠ "loggedId" → p ∈ coveredParams op route body) →
        ∃ fr w, setup_endpoint apiPrefix route method sql auth rolesP body =
          .registered fr w ∧ SetupWarning.wrongVerb ∈ w) := by
  refine ⟨?_, ?_, ?_⟩
  · intro hnone
    have hcm : check_method sql method = .fatalBadOp := by
      simp [check_method, hnone]
    refine ⟨hcm, ?_⟩
    unfold setup_endpoint
    rw [if_pos hcm]
  · intro hfatal
    by_contra hne
    obtain ⟨op, hop⟩ := Option.ne_none_iff_exists'.mp hne
    rcases rolesP with roles | _
    · rw [setup_endpoint_eq_of_op hop apiPrefix route method auth roles body] at hfatal
      split at hfatal <;> simp_all
    · unfold setup_endpoint at hfatal
      rw [if_neg (check_method_ne_fatal hop method)] at hfatal
      simp [check_auth_roles] at hfatal
  · intro op hop hverb
    have hcm : check_method sql method = .warnWrongVerb := by
      simp [check_method, hop, hverb]
    refine ⟨hcm, ?_⟩
    rintro roles rfl hcov
    rw [setup_endpoint_eq_of_op hop apiPrefix route method auth roles body]
    have hd := (missing_params_eq_nil_iff (extract_params sql)
      (coveredParams op route body)).mpr hcov
    unfold check_params_match
    rw [if_pos hd]
    exact ⟨_, _, rfl, by simp [hcm]⟩

/-- Witness for C2 at concrete endpoints: a `MERGE` query aborts registration
fatally, while a `SELECT` declared with verb `post` registers and records the
wrong-verb warning. -/
theorem setup_endpoint_unrecognized_keyword_fatal_witness :
    setup_endpoint "/api" "/users" "post" "MERGE INTO users" false
      (.list ["*"]) [] = .fatalBadOp ∧
    ∃ fr w, setup_endpoint "/api" "/users" "post" "SELECT * FROM users" false
      (.list ["*"]) [] = .registered fr w ∧ SetupWarning.wrongVerb ∈ w :=
  ⟨((setup_endpoint_unrecognized_keyword_fatal "/api" "/users" "post"
      "MERGE INTO users" false (.list ["*"]) []).1 (by decide)).2,
    ((setup_endpoint_unrecognized_keyword_fatal "/api" "/users" "post"
      "SELECT * FROM users" false (.list ["*"]) []).2.2 .select (by decide)
      (by decide)).2 ["*"] rfl (by decide)⟩

/-- C9: the authorization-configuration check aborts registration fatally
whenever `allowed_roles` is not a list (no route is ever installed, and once
the keyword is recognized the abort is exactly the roles-fatal exit); it
warns without aborting when `auth_required` is false but a role restriction
other than the default `["*"]` is given, and when `auth_required` is true
with an empty role list; the two concrete endpoints of the claim register
with exactly those warnings. -/
theorem check_auth_roles_config (apiPrefix route method sql : String)
    (body : List String) :
    (∀ auth, check_auth_roles auth .notAList = .fatalNotAList) ∧
    (∀ auth fr w, ¬ setup_endpoint apiPrefix route method sql auth .notAList body =
      .registered fr w) ∧
    (∀ auth op, get_sql_op sql = some op →
      setup_endpoint apiPrefix route method sql auth .notAList body = .fatalBadRoles) ∧
    (∀ roles, roles ≠ [] → roles ≠ ["*"] →
      check_auth_roles false (.list roles) = .warnRolesWithoutAuth) ∧
    check_auth_roles true (.list []) = .warnEmptyRoles ∧
    setup_endpoint "/api" "/users" "get" "SELECT * FROM users" false
      (.list ["admin"]) [] = .registered "/api/users" [.rolesWithoutAuth] ∧
    setup_endpoint "/api" "/users" "get" "SELECT * FROM users" true
      (.list []) [] = .registered "/api/users" [.emptyRoles] := by
  refine ⟨fun auth => rfl, ?_, ?_, ?_, rfl, by decide, by decide⟩
  · intro auth fr w h
    unfold setup_endpoint at h
    by_cases hcm : check_method sql method = .fatalBadOp
    · rw [if_pos hcm] at h
      cases h
    · rw [if_neg hcm] at h
      simp [check_auth_roles] at h
  · intro auth op hop
    unfold setup_endpoint
    rw [if_neg (check_method_ne_fatal hop method)]
    simp [check_auth_roles]
  · intro roles hne hstar
    have hlen : roles.length > 0 := by
      cases roles
      · exact absurd rfl hne
      · simp
    simp [check_auth_roles, hlen, hstar]

/-- Witness for C9: a non-default role list without `auth_required` warns (at
`["admin"]`), and the non-list abort applies at a concrete endpoint. -/
theorem check_auth_roles_config_witness :
    check_auth_roles false (.list ["admin"]) = .warnRolesWithoutAuth ∧
    setup_endpoint "/api" "/users" "get" "SELECT * FROM users" false
      .notAList [] = .fatalBadRoles :=
  ⟨(check_auth_roles_config "/api" "/users" "get" "SELECT * FROM users" []).2.2.2.1
      ["admin"] (by decide) (by decide),
    (check_auth_roles_config "/api" "/users" "get" "SELECT * FROM users" []).2.2.1
      false .select (by decide)⟩

/-- C3: an absent or invalid bearer token yields no identity rather than an
error; when the endpoint requires authentication and no identity was
established, the handler answers 401 Unauthorized with zero queries delegated
to the data layer; with a configured role column the same 401-before-query
applies unless the identity's role value is a member of `allowed_roles` or
`"*"` is allowed; with no role column configured, any authenticated identity
passes the session check. -/
theorem route_handler_auth_gate (cfg : EndpointCfg) (role_col : Option String)
    (check_token : String → Except String Row) (token : Option String)
    (args : Args) (dbRows : List Row) :
    (token = none → get_logged_user check_token token = none) ∧
    (∀ t e, token = some t → check_token t = .error e →
      get_logged_user check_token token = none) ∧
    (cfg.auth_required = true → get_logged_user check_token token = none →
      route_handler cfg role_col check_token token args dbRows =
        (0, .error ⟨401, "Unauthorized"⟩)) ∧
    (∀ d rc, cfg.auth_required = true →
      get_logged_user check_token token = some d → role_col = some rc → rc ≠ "" →
      roleMem (findRole d rc) cfg.allowed_roles = false →
      cfg.allowed_roles.contains "*" = false →
      route_handler cfg role_col check_token token args dbRows =
        (0, .error ⟨401, "Unauthorized"⟩)) ∧
    (∀ d, role_col = none →
      check_session (some d) cfg.allowed_roles role_col = .ok ()) := by
  refine ⟨?_, ?_, ?_, ?_, ?_⟩
  · rintro rfl
    rfl
  · rintro t e rfl he
    by_cases ht : t = "" <;> simp [get_logged_user, ht, he]
  · intro hauth hnone
    simp [route_handler, hauth, hnone, check_session]
  · intro d rc hauth hsome hrc hne hmem hstar
    have hstar' : "*" ∉ cfg.allowed_roles := by simpa [List.contains] using hstar
    simp [route_handler, hauth, hsome, hrc, check_session, hne, hmem, hstar, hstar']
  · rintro d rfl
    rfl

/-- Witness for C3: an invalid token yields no identity and, on an
auth-required endpoint, a 401 with no query executed. -/
theorem route_handler_auth_gate_witness :
    get_logged_user (fun _ => .error "invalid signature") (some "tok") = none ∧
    route_handler ⟨"/users", "SELECT * FROM users", true, ["admin"], []⟩ none
      (fun _ => .error "invalid signature") (some "tok") [] [] =
      (0, .error ⟨401, "Unauthorized"⟩) := by
  have h := route_handler_auth_gate ⟨"/users", "SELECT * FROM users", true, ["admin"], []⟩
    none (fun _ => .error "invalid signature") (some "tok") [] []
  have hnone : get_logged_user (fun _ : String => (.error "invalid signature" :
      Except String Row)) (some "tok") = none :=
    h.2.1 "tok" "invalid signature" rfl rfl
  exact ⟨hnone, h.2.2.1 rfl hnone⟩

/-- C10: the identity's role claim is located by case-insensitive key
comparison against the configured role column, but the role value itself is
matched against `allowed_roles` case-sensitively: an identity whose role
value differs from every allowed role only in letter case is rejected with
401 unless `"*"` is allowed. -/
theorem check_session_role_case_sensitive (data : Row) (roles : List String)
    (rc r : String) (hrc : rc ≠ "")
    (hrole : findRole data rc = some (.vStr r))
    (hcase : ∀ a ∈ roles, lowerStr a = lowerStr r ∧ a ≠ r)
    (hstar : "*" ∉ roles) :
    (∀ (k : String) (v : Value) (tail : Row), lowerStr k = lowerStr rc →
      findRole ((k, v) :: tail) rc = some v) ∧
    check_session (some data) roles (some rc) = .error ⟨401, "Unauthorized"⟩ := by
  constructor
  · intro k v tail hk
    simp [findRole, List.find?, hk]
  · have hr : r ∉ roles := fun hmem => (hcase r hmem).2 rfl
    simp [check_session, hrc, hrole, roleMem, hr, hstar, List.elem_iff]

/-- Witness for C10: the key `Role` is found for configured column `role`,
and the value `Admin` is rejected against allowed role `admin`. -/
theorem check_session_role_case_sensitive_witness :
    findRole [("Role", Value.vStr "Admin")] "role" = some (Value.vStr "Admin") ∧
    check_session (some [("Role", Value.vStr "Admin")]) ["admin"] (some "role") =
      .error ⟨401, "Unauthorized"⟩ :=
  ⟨by decide,
    (check_session_role_case_sensitive [("Role", Value.vStr "Admin")] ["admin"]
      "role" "Admin" (by decide) (by decide) (by decide) (by decide)).2⟩

/-- C4: rows whose sort-column value is null are keyed with the `Min`
sentinel, which sorts below and compares without error against every key;
hence ascending sort of `[{v:null},{v:5},{v:2}]` by `v` yields
`[{v:null},{v:2},{v:5}]` and descending sort yields `[{v:5},{v:2},{v:null}]`;
and when the sort column is missing from a row, sorting is silently skipped
and the rows keep their current order. -/
theorem sort_null_sentinel :
    (∀ sp row, lookupRow row sp = some .vNull → order_key_func sp row = .minK) ∧
    (∀ k, keyLE .minK k = true ∧ keyComparable .minK k = true) ∧
    filter_query_results [[("v", .vNull)], [("v", .vInt 5)], [("v", .vInt 2)]]
      [("_sort", "v")] =
      some [[("v", .vNull)], [("v", .vInt 2)], [("v", .vInt 5)]] ∧
    filter_query_results [[("v", .vNull)], [("v", .vInt 5)], [("v", .vInt 2)]]
      [("_sort", "v"), ("_order", "desc")] =
      some [[("v", .vInt 5)], [("v", .vInt 2)], [("v", .vNull)]] ∧
    (∀ res sp rev, (∃ row ∈ res, lookupRow row sp = none) →
      sortStage res (some sp) rev = some res) := by
  refine ⟨?_, ?_, by decide, by decide, ?_⟩
  · intro sp row h
    simp [order_key_func, h]
  · intro k
    cases k <;> simp [keyLE, keyComparable]
  · rintro res sp rev ⟨row, hrow, hnone⟩
    have hfalse : ¬ (res.all (fun r => (lookupRow r sp).isSome) = true) := by
      intro hall
      have := List.all_eq_true.mp hall row hrow
      simp [hnone] at this
    simp [sortStage, hfalse]

/-- Witness for C4: a null value is keyed as `Min`, and a row lacking the
sort column leaves the list unchanged. -/
theorem sort_null_sentinel_witness :
    order_key_func "v" [("v", Value.vNull)] = .minK ∧
    sortStage [[("x", Value.vInt 1)]] (some "v") false =
      some [[("x", Value.vInt 1)]] :=
  ⟨sort_null_sentinel.1 "v" [("v", .vNull)] (by decide),
    sort_null_sentinel.2.2.2.2 [[("x", .vInt 1)]] "v" false
      ⟨[("x", .vInt 1)], by decide, by decide⟩⟩

/-- C5 (counterexample): `_limit=0` parses as the integer 0, for which the
claim prescribes the empty slice `[0, 0)`, but the code's `if limit` /
`if limit and page` truthiness tests treat 0 like "no limit" and return all
rows. -/
theorem pagination_limit_zero_counterexample :
    filter_query_results [[("a", Value.vInt 1)]] [("_limit", "0")] =
      some [[("a", Value.vInt 1)]] ∧
    pyToInt (argsGet [("_limit", "0")] "_limit") = some 0 ∧
    pySlice ([[("a", Value.vInt 1)]] : List Row) 0 0 = ([] : List Row) := by
  decide

theorem pySlice_zero_length (l : List Row) : pySlice l 0 (l.length : Int) = l := by
  unfold pySlice pyIdx
  rw [if_neg (by omega), if_neg (by omega)]
  simp

/-- C5 (amended): on the filtered-and-sorted rows `res`, if both `_limit` and
`_page` parse as integers and `_limit` is nonzero, the result is the Python
slice `res[_limit*_page : _limit*_page + _limit]` (a zero `_page` behaving as
offset 0); if `_limit` parses nonzero and `_page` is absent or non-numeric,
the slice `res[0:_limit]`; if `_limit` is absent, non-numeric, or zero, all
rows are returned. Non-numeric values degrade to unset, never an error. -/
theorem pagination_slices (data : List Row) (args : Args) (res : List Row)
    (hres : sortStage (filterStage data args) (argsGet args "_sort")
      (argsGet args "_order" == some "desc") = some res) :
    (∀ li pi, pyToInt (argsGet args "_limit") = some li → li ≠ 0 →
      pyToInt (argsGet args "_page") = some pi →
      filter_query_results data args =
        some (pySlice res (li * pi) (li * pi + li))) ∧
    (∀ li, pyToInt (argsGet args "_limit") = some li → li ≠ 0 →
      pyToInt (argsGet args "_page") = none →
      filter_query_results data args = some (pySlice res 0 li)) ∧
    (pyToInt (argsGet args "_limit") = none ∨
      pyToInt (argsGet args "_limit") = some 0 →
      filter_query_results data args = some res) := by
  have hfq : filter_query_results data args = some (pageStage res
      (pyToInt (argsGet args "_limit")) (pyToInt (argsGet args "_page"))) := by
    simp only [filter_query_results, hres]
    rfl
  refine ⟨?_, ?_, ?_⟩
  · intro li pi hli hlne hpi
    rw [hfq, hli, hpi]
    unfold pageStage
    by_cases hp : pi = 0
    · subst hp
      simp [hlne]
    · simp [hlne, hp]
  · intro li hli hne hpage
    rw [hfq, hli, hpage]
    simp [pageStage, hne]
  · rintro (h | h) <;> rw [hfq, h]
    · simp [pageStage, pySlice_zero_length]
    · cases hpage : pyToInt (argsGet args "_page") <;>
        simp [pageStage, pySlice_zero_length]

theorem mem_dedupKeys (args : Args) :
    ∀ (seen : List String) (k v : String),
      (k, v) ∈ dedupKeys args seen ↔ k ∉ seen ∧ argsGet args k = some v := by
  induction args with
  | nil =>
    intro seen k v
    simp [dedupKeys, argsGet]
  | cons kv rest ih =>
    intro seen k v
    obtain ⟨k', v'⟩ := kv
    by_cases hk : k = k'
    · subst hk
      by_cases hseen : k ∈ seen
      · simp [dedupKeys, hseen, ih, argsGet, List.find?]
      · simp [dedupKeys, hseen, ih, argsGet, List.find?, eq_comm]
    · have hbeq : (k' == k) = false := beq_eq_false_iff_ne.mpr (Ne.symm hk)
      by_cases hseen : k' ∈ seen
      · simp [dedupKeys, hseen, ih, argsGet, List.find?, hbeq, hk]
      · simp [dedupKeys, hseen, ih, argsGet, List.find?, hbeq, hk]

/-- The filter predicate of `filter_query_results`, characterized: a row
passes iff every non-reserved query-string key that names one of its columns
has a case-insensitively equal string value. -/
theorem rowMatches_iff (args : Args) (r : Row) :
    rowMatches (filter_criteria args) r = true ↔
      ∀ k v, argsGet args k = some v → startsUnderscore k = false →
        ∀ val, lookupRow r k = some val → lowerStr (pyStr val) = lowerStr v := by
  unfold rowMatches filter_criteria
  rw [List.all_eq_true]
  constructor
  · intro h k v hk hu val hval
    have hmem : (k, v) ∈ argsItems args := (mem_dedupKeys args [] k v).mpr ⟨by simp, hk⟩
    have := h (k, v) (List.mem_filter.mpr ⟨hmem, by simp [hu]⟩)
    simpa [hval] using this
  · intro h kv hkv
    obtain ⟨hmem, hu⟩ := List.mem_filter.mp hkv
    have hget := ((mem_dedupKeys args [] kv.1 kv.2).mp (by
      simpa [argsItems] using hmem)).2
    cases hlk : lookupRow r kv.1 with
    | none => simp [hlk]
    | some val =>
      simp only [hlk, beq_iff_eq]
      exact h kv.1 kv.2 hget (by simpa using hu) val hlk

/-- Witness for C5 (amended): 4 rows with `_limit=3&_page=1` produce the
Python slice `res[3:6]`. -/
theorem pagination_slices_witness :
    filter_query_results
      [[("a", Value.vInt 1)], [("a", Value.vInt 2)], [("a", Value.vInt 3)],
        [("a", Value.vInt 4)]]
      [("_limit", "3"), ("_page", "1")] =
      some (pySlice
        [[("a", Value.vInt 1)], [("a", Value.vInt 2)], [("a", Value.vInt 3)],
          [("a", Value.vInt 4)]] (3 * 1) (3 * 1 + 3)) :=
  (pagination_slices
      [[("a", Value.vInt 1)], [("a", Value.vInt 2)], [("a", Value.vInt 3)],
        [("a", Value.vInt 4)]]
      [("_limit", "3"), ("_page", "1")]
      [[("a", Value.vInt 1)], [("a", Value.vInt 2)], [("a", Value.vInt 3)],
        [("a", Value.vInt 4)]] (by decide)).1 3 1 (by decide)
    (by decide) (by decide)

/-- C6: the filter retains exactly the rows in which, for each query-string
key not starting with an underscore, either the key names no column of the
row (ignored) or the row's value rendered as a string equals the query value
case-insensitively; any mismatch on a present column excludes the row, and
the relative order of the retained rows is preserved (the result is a
sublist of the input). -/
theorem filterStage_tolerant_equality (data : List Row) (args : Args) :
    (filterStage data args).Sublist data ∧
    ∀ r, r ∈ filterStage data args ↔ r ∈ data ∧
      ∀ k v, argsGet args k = some v → startsUnderscore k = false →
        ∀ val, lookupRow r k = some val → lowerStr (pyStr val) = lowerStr v := by
  refine ⟨List.filter_sublist _, fun r => ?_⟩
  rw [filterStage, List.mem_filter, rowMatches_iff]

/-- Witness for C6: `{name: "Bob"}` matches `?name=bob`, `{name: "Eve"}` does
not, and an unknown column key is ignored. -/
theorem filterStage_tolerant_equality_witness :
    [("name", Value.vStr "Bob")] ∈
      filterStage [[("name", Value.vStr "Bob")], [("name", Value.vStr "Eve")]]
        [("name", "bob"), ("ghost", "1")] ∧
    [("name", Value.vStr "Eve")] ∉
      filterStage [[("name", Value.vStr "Bob")], [("name", Value.vStr "Eve")]]
        [("name", "bob"), ("ghost", "1")] := by
  have h := filterStage_tolerant_equality
    [[("name", Value.vStr "Bob")], [("name", Value.vStr "Eve")]]
    [("name", "bob"), ("ghost", "1")]
  constructor
  · refine (h.2 [("name", Value.vStr "Bob")]).mpr ⟨by decide, ?_⟩
    intro k v hkv hu val hval
    by_cases hk1 : k = "name"
    · subst hk1
      have hv : v = "bob" := by simpa [argsGet, List.find?, eq_comm] using hkv
      have hval' : val = Value.vStr "Bob" := by
        simpa [lookupRow, List.find?, eq_comm] using hval
      subst hv
      subst hval'
      decide
    · by_cases hk2 : k = "ghost"
      · subst hk2
        simp [lookupRow, List.find?] at hval
      · have hb1 : ("name" == k) = false := beq_eq_false_iff_ne.mpr (Ne.symm hk1)
        have hb2 : ("ghost" == k) = false := beq_eq_false_iff_ne.mpr (Ne.symm hk2)
        simp [argsGet, List.find?, hb1, hb2] at hkv
  · intro hmem
    have := (h.2 [("name", Value.vStr "Eve")]).mp hmem
    have hbad := this.2 "name" "bob" (by decide) (by decide) (Value.vStr "Eve")
      (by decide)
    exact absurd hbad (by decide)

/-- C7: for a SELECT endpoint that gets past the session check, a route
pattern matching `RE_QUERY_PARAM` (ending in a placeholder, optionally
followed by a slash) turns an empty filtered result into a 404 error, while
a route pattern not ending in a placeholder returns the filtered rows as a
200 response — in particular an empty list when there are no rows. -/
theorem route_handler_single_resource_404 (cfg : EndpointCfg)
    (role_col : Option String) (check_token : String → Except String Row)
    (token : Option String) (args : Args) (dbRows res : List Row)
    (hpass : cfg.auth_required = false ∨
      check_session (get_logged_user check_token token) cfg.allowed_roles role_col =
        .ok ())
    (hsel : get_sql_op cfg.sql = some .select)
    (hres : filter_query_results dbRows args = some res) :
    (endsWithParam cfg.route = true → res = [] →
      route_handler cfg role_col check_token token args dbRows =
        (1, .error ⟨404, "Not found"⟩)) ∧
    (endsWithParam cfg.route = false →
      route_handler cfg role_col check_token token args dbRows =
        (1, .ok (.rows res))) := by
  have key : route_handler cfg role_col check_token token args dbRows =
      (if endsWithParam cfg.route && res.isEmpty then (1, .error ⟨404, "Not found"⟩)
       else (1, .ok (.rows res))) := by
    unfold route_handler
    rcases hpass with hauth | hsess
    · simp [hauth, hsel, hres]
    · simp [hsess, hsel, hres]
  constructor
  · intro hends hempty
    rw [key, if_pos (by simp [hends, hempty])]
  · intro hends
    rw [key, if_neg (by simp [hends])]

/-- Witness for C7: the single-resource route `/users/$id` with zero rows
yields a 404; the collection route `/users` with zero rows yields a 200 with
the empty list. -/
theorem route_handler_single_resource_404_witness :
    route_handler ⟨"/users/$id", "SELECT * FROM users WHERE id = $id", false,
        ["*"], []⟩ none (fun _ => .error "no auth") none [] [] =
      (1, .error ⟨404, "Not found"⟩) ∧
    route_handler ⟨"/users", "SELECT * FROM users", false, ["*"], []⟩ none
      (fun _ => .error "no auth") none [] [] = (1, .ok (.rows [])) :=
  ⟨(route_handler_single_resource_404
      ⟨"/users/$id", "SELECT * FROM users WHERE id = $id", false, ["*"], []⟩
      none (fun _ => .error "no auth") none [] [] [] (Or.inl rfl) (by decide)
      (by decide)).1 (by decide) rfl,
    (route_handler_single_resource_404
      ⟨"/users", "SELECT * FROM users", false, ["*"], []⟩
      none (fun _ => .error "no auth") none [] [] [] (Or.inl rfl) (by decide)
      (by decide)).2 (by decide)⟩

end Silence
